import Mathlib

/-!
Verification development for the ArgoCD MCP server's safety and logging
core (`argocd_mcp/utils/safety.py`, `argocd_mcp/utils/logging.py`).

The Python code is shallowly embedded: stateful objects become Lean
structures with explicit state passing, `time.time()` and
`uuid.uuid4()` become explicit parameters, Python `str | None` becomes
`Option String`, and Python dicts become association lists or functions
with defaultdict semantics.  Timestamps are modelled as integers (the
code uses floats only as an ordered numeric carrier; none of the
verified properties depend on non-integral instants).
-/

namespace ArgocdMcp

/-- Embeds the dataclass `ConfirmationRequired` of `safety.py`: the
response telling the caller which confirmation parameters to resubmit
for a destructive operation.  The `details` dict is an insertion-ordered
association list. -/
structure ConfirmationRequired where
  operation : String
  target : String
  impact : String
  confirmation_instructions : String
  details : List (String × String) := []
  deriving Repr, DecidableEq

/-- Embeds the dataclass `OperationBlocked` of `safety.py`: the response
when a security setting prevents an operation outright. -/
structure OperationBlocked where
  operation : String
  reason : String
  setting : String
  deriving Repr, DecidableEq

/-- Embeds `OperationBlocked.format_message`: four lines, the last being
the unblock instruction `To enable: Set <setting>=false in server
configuration`. -/
def OperationBlocked.format_message (b : OperationBlocked) : String :=
  "OPERATION BLOCKED: " ++ b.operation ++ "\n" ++
  "Reason: " ++ b.reason ++ "\n" ++
  "Setting: " ++ b.setting ++ "\n" ++
  "To enable: Set " ++ b.setting ++ "=false in server configuration"

/-- Embeds the `RateLimiter` object state: configured `max_calls` and
`window_seconds` (Python ints, kept as `Int` because the constructor
performs no validation and negative values flow through unchecked), and
the `_calls` defaultdict mapping each key to its timestamp list (a
missing key reads as `[]`). -/
structure RateLimiter where
  max_calls : Int
  window : Int
  calls : String → List Int

/-- Embeds `RateLimiter.__init__(max_calls, window_seconds)`: stores both
parameters unvalidated and starts with an empty `defaultdict(list)`. -/
def RateLimiter.init (max_calls window_seconds : Int) : RateLimiter :=
  { max_calls := max_calls, window := window_seconds, calls := fun _ => [] }

/-- Embeds `RateLimiter.check(key)` at current time `now`: prune the
key's timestamps to those with `now - t < window`, write the pruned list
back, reject (without recording) when the pruned count reaches
`max_calls`, otherwise append `now` and admit.  Returns the Python
return value together with the post-state. -/
def RateLimiter.check (rl : RateLimiter) (key : String) (now : Int) :
    Bool × RateLimiter :=
  let pruned := (rl.calls key).filter (fun t => now - t < rl.window)
  if (pruned.length : Int) ≥ rl.max_calls then
    (false, { rl with calls := fun k => if k = key then pruned else rl.calls k })
  else
    (true, { rl with calls := fun k => if k = key then pruned ++ [now] else rl.calls k })

/-- Embeds `RateLimiter.reset(key=None)`.  The Python guard is
`if key:` — truthiness — so `None` and the empty string both take the
clear-all branch, while a non-empty key is popped from the dict (a
no-op on a missing key, since a missing key already reads as `[]`). -/
def RateLimiter.reset (rl : RateLimiter) (key : Option String) : RateLimiter :=
  match key with
  | some k =>
      if k = "" then { rl with calls := fun _ => [] }
      else { rl with calls := fun k2 => if k2 = k then [] else rl.calls k2 }
  | none => { rl with calls := fun _ => [] }

/-- Embeds the fields of `SecuritySettings` (from `config.py`) that the
safety core reads. -/
structure SecuritySettings where
  read_only : Bool
  disable_destructive : Bool
  single_cluster : Bool
  rate_limit_calls : Int
  rate_limit_window : Int

/-- Embeds the `SafetyGuard` object: the settings snapshot and the
rate limiter built from them. -/
structure SafetyGuard where
  settings : SecuritySettings
  rate_limiter : RateLimiter

/-- Embeds `SafetyGuard.__init__(settings)`. -/
def SafetyGuard.init (s : SecuritySettings) : SafetyGuard :=
  { settings := s
    rate_limiter := RateLimiter.init s.rate_limit_calls s.rate_limit_window }

/-- Embeds `SafetyGuard.check_read_operation(operation)` at time `now`:
reads are never permission-blocked, only rate-limited under the key
`read:<operation>`. -/
def SafetyGuard.check_read_operation (g : SafetyGuard) (operation : String)
    (now : Int) : Option OperationBlocked × SafetyGuard :=
  let res := g.rate_limiter.check ("read:" ++ operation) now
  if res.1 then
    (none, { g with rate_limiter := res.2 })
  else
    (some { operation := operation, reason := "Rate limit exceeded",
            setting := "MCP_RATE_LIMIT_CALLS" },
     { g with rate_limiter := res.2 })

/-- Embeds `SafetyGuard.check_write_operation(operation)` at time `now`:
layer 1 returns the read-only block immediately (the rate limiter is not
consulted), layer 4 rate-limits under the key `write:<operation>`. -/
def SafetyGuard.check_write_operation (g : SafetyGuard) (operation : String)
    (now : Int) : Option OperationBlocked × SafetyGuard :=
  if g.settings.read_only then
    (some { operation := operation,
            reason := "Server is running in read-only mode",
            setting := "MCP_READ_ONLY" }, g)
  else
    let res := g.rate_limiter.check ("write:" ++ operation) now
    if res.1 then
      (none, { g with rate_limiter := res.2 })
    else
      (some { operation := operation, reason := "Rate limit exceeded",
              setting := "MCP_RATE_LIMIT_CALLS" },
       { g with rate_limiter := res.2 })

/-- Embeds the static `SafetyGuard._get_impact_description`: a fixed map
from operation name to impact text, with a generic fallback. -/
def SafetyGuard.get_impact_description (operation : String) : String :=
  if operation = "delete_application" then
    "Application and all managed resources will be PERMANENTLY DELETED"
  else if operation = "sync_with_prune" then
    "Resources not in Git will be DELETED from cluster"
  else if operation = "sync_with_force" then
    "Resources will be replaced, potentially causing downtime"
  else if operation = "rollback" then
    "Application will revert to previous state, may cause service disruption"
  else
    "This operation may have significant impact"

/-- The three possible outcomes of `check_destructive_operation`
(Python returns `OperationBlocked | ConfirmationRequired | None`). -/
inductive DestructiveCheck where
  | blocked (b : OperationBlocked)
  | confirmation (c : ConfirmationRequired)
  | allowed
  deriving Repr, DecidableEq

/-- Embeds `SafetyGuard.check_destructive_operation(operation, target,
confirmed, confirm_name)` at time `now`: first the write gates
(read-only, then rate limit), then the destructive-disabled gate, then
the two-factor confirmation (`confirmed` must be true AND `confirm_name`
must exactly equal `target`; a Python `None` name never matches). -/
def SafetyGuard.check_destructive_operation (g : SafetyGuard)
    (operation target : String) (confirmed : Bool)
    (confirm_name : Option String) (now : Int) :
    DestructiveCheck × SafetyGuard :=
  match g.check_write_operation operation now with
  | (some b, g2) => (.blocked b, g2)
  | (none, g2) =>
    if g2.settings.disable_destructive then
      (.blocked { operation := operation,
                  reason := "Destructive operations are disabled",
                  setting := "MCP_DISABLE_DESTRUCTIVE" }, g2)
    else if ¬ confirmed ∨ confirm_name ≠ some target then
      (.confirmation
        { operation := operation
          target := target
          impact := SafetyGuard.get_impact_description operation
          confirmation_instructions :=
            "To proceed, set confirm=true AND confirm_name=\x27" ++ target ++ "\x27" },
       g2)
    else
      (.allowed, g2)

/-- Embeds `SafetyGuard.check_cluster_operation(operation, cluster)`:
blocked exactly when `single_cluster` is set and the cluster is not the
literal `in-cluster`. -/
def SafetyGuard.check_cluster_operation (g : SafetyGuard)
    (operation cluster : String) : Option OperationBlocked :=
  if g.settings.single_cluster ∧ cluster ≠ "in-cluster" then
    some { operation := operation
           reason := "Operation on cluster \x27" ++ cluster ++
             "\x27 blocked in single-cluster mode"
           setting := "MCP_SINGLE_CLUSTER" }
  else
    none

/-- Embeds `get_correlation_id` of `logging.py`.  The `ContextVar`
state is the explicit `state : String` (default `""`); the randomness of
`uuid.uuid4()` is the explicit parameter `u` (the full UUID string), of
which the code keeps the first 8 characters.  Returns the Python return
value together with the post-state of the context variable.  The Python
guard is `if not cid:` — truthiness — so only the empty string triggers
generation. -/
def get_correlation_id (state : String) (u : String) : String × String :=
  if state = "" then
    let cid := u.take 8
    (cid, cid)
  else
    (state, state)

/-- Embeds `set_correlation_id(cid)`: stores `cid` as the new context
state unconditionally. -/
def set_correlation_id (cid : String) : String :=
  cid

/-- Values occurring in a serialized audit record: strings, dict-valued
`details`, and Python `None` (serialized as JSON `null`). -/
inductive AuditVal where
  | str (v : String)
  | dict (d : List (String × String))
  | null
  deriving Repr, DecidableEq

/-- Embeds Python truthiness of `details : dict | None` as used by
`if details:` in `AuditLogger.log`: `None` and the empty dict are falsy. -/
def detailsTruthy : Option (List (String × String)) → Bool
  | none => false
  | some d => !d.isEmpty

/-- Embeds the `AuditLogger` object: only the `log_path` choice made at
construction matters for behaviour (here a `Bool`-like option standing
for `Path | None`). -/
structure AuditLogger where
  log_path : Option String

/-- Embeds the `entry` dict built by `AuditLogger.log` and written to
the audit file as one JSON line: the five fixed fields, plus `details`
only when truthy (non-None and non-empty). -/
def AuditLogger.buildEntry (timestamp cid action target result : String)
    (details : Option (List (String × String))) : List (String × AuditVal) :=
  let base : List (String × AuditVal) :=
    [("timestamp", .str timestamp), ("correlation_id", .str cid),
     ("action", .str action), ("target", .str target), ("result", .str result)]
  if detailsTruthy details then
    base ++ [("details", .dict (details.getD []))]
  else
    base

/-- Embeds the keyword arguments of the `self._logger.info("audit", ...)`
call in the stdout branch of `AuditLogger.log`: `details` is passed
through unconditionally, as `None` when absent. -/
def AuditLogger.stdoutEvent (action target result : String)
    (details : Option (List (String × String))) : List (String × AuditVal) :=
  [("event", .str "audit"), ("action", .str action), ("target", .str target),
   ("result", .str result),
   ("details", match details with
               | none => .null
               | some d => .dict d)]

/-- Embeds `AuditLogger.log(action, target, result, details)`: the
serialized record it emits, as a field list.  The wall clock and the
correlation ID fetch are the explicit `timestamp` and `cid` parameters.
File mode writes `buildEntry`; stdout mode forwards the call's keyword
arguments to structlog (`stdoutEvent`). -/
def AuditLogger.log (al : AuditLogger) (timestamp cid : String)
    (action target result : String)
    (details : Option (List (String × String))) : List (String × AuditVal) :=
  match al.log_path with
  | some _ => AuditLogger.buildEntry timestamp cid action target result details
  | none => AuditLogger.stdoutEvent action target result details

/-- Demo limiter with one recorded call under key `b`, used to witness
the frame part of the reset theorem. -/
def resetDemoLimiter : RateLimiter :=
  { max_calls := 2, window := 60, calls := fun k => if k = "b" then [5] else [] }

/-- C3: sliding-window rate limiting.  `check` prunes entries older than
the window, rejects without recording when the pruned count already
reaches `max_calls` (an inclusive ceiling), otherwise appends `now` and
admits; other keys are untouched.  Concretely, with `max_calls = 2`,
three `check "x"` calls at one instant yield `[true, true, false]`, and
a call is re-admitted once the earlier timestamps fall outside the
window. -/
theorem rateLimiter_check_sliding_window (rl : RateLimiter) (k : String) (now : Int) :
    (((rl.check k now).1 = true ↔
        (((rl.calls k).filter (fun t => now - t < rl.window)).length : Int) < rl.max_calls) ∧
      (rl.check k now).2.calls k =
        (if (rl.check k now).1 then
           ((rl.calls k).filter (fun t => now - t < rl.window)) ++ [now]
         else
           (rl.calls k).filter (fun t => now - t < rl.window)) ∧
      (∀ k2, k2 ≠ k → (rl.check k now).2.calls k2 = rl.calls k2)) ∧
    (((RateLimiter.init 2 60).check "x" 0).1 = true ∧
      (((RateLimiter.init 2 60).check "x" 0).2.check "x" 0).1 = true ∧
      ((((RateLimiter.init 2 60).check "x" 0).2.check "x" 0).2.check "x" 0).1 = false ∧
      (((((RateLimiter.init 2 60).check "x" 0).2.check "x" 0).2.check "x" 0).2.check "x" 60).1
        = true) := by
  constructor
  · by_cases h :
      (((rl.calls k).filter (fun t => now - t < rl.window)).length : Int) ≥ rl.max_calls
    · refine ⟨?_, ?_, ?_⟩
      · simp [RateLimiter.check, h, not_lt.mpr h]
      · simp [RateLimiter.check, h]
      · intro k2 hk2
        simp [RateLimiter.check, h, hk2]
    · refine ⟨?_, ?_, ?_⟩
      · simp [RateLimiter.check, h, lt_of_not_ge h]
      · simp [RateLimiter.check, h]
      · intro k2 hk2
        simp [RateLimiter.check, h, hk2]
  · exact ⟨by decide, by decide, by decide, by decide⟩

/-- Witness for C3 at a concrete input: a limiter with budget 2 and one
stale timestamp admits the call, drops the stale entry, records the new
one, and leaves the unrelated key `b` untouched. -/
theorem rateLimiter_check_sliding_window_witness :
    ((resetDemoLimiter.check "b" 100).1 = true ∧
      (resetDemoLimiter.check "b" 100).2.calls "b" = [100]) ∧
    (resetDemoLimiter.check "b" 100).2.calls "a" = [] := by
  have h := rateLimiter_check_sliding_window resetDemoLimiter "b" 100
  refine ⟨⟨h.1.1.mpr (by decide), ?_⟩, ?_⟩
  · rw [h.1.2.1, if_pos (h.1.1.mpr (by decide))]
    decide
  · rw [h.1.2.2 "a" (by decide)]
    decide

/-- C10: `reset` with the empty string behaves exactly like `reset` with
no key — it clears every key's timestamps (Python `if key:` is a
truthiness test) — while a non-empty key clears only that key, leaving
every other key unchanged (hence a no-op on a missing key, which already
reads as empty). -/
theorem rateLimiter_reset_empty_key_clears_all (rl : RateLimiter) (k k2 : String) :
    rl.reset (some "") = rl.reset none ∧
    (rl.reset (some "")).calls k = [] ∧
    (rl.reset none).calls k = [] ∧
    (k ≠ "" →
      (rl.reset (some k)).calls k = [] ∧
      (k2 ≠ k → (rl.reset (some k)).calls k2 = rl.calls k2)) := by
  refine ⟨rfl, rfl, rfl, fun hk => ⟨?_, fun hk2 => ?_⟩⟩
  · simp [RateLimiter.reset, hk]
  · simp [RateLimiter.reset, hk, hk2]

/-- Witness for C10 at a concrete input: resetting key `a` leaves key
`b`'s recorded timestamp in place, and resetting `some ""` wipes `b`. -/
theorem rateLimiter_reset_empty_key_clears_all_witness :
    (resetDemoLimiter.reset (some "a")).calls "a" = [] ∧
    (resetDemoLimiter.reset (some "a")).calls "b" = [5] ∧
    (resetDemoLimiter.reset (some "")).calls "b" = [] := by
  have h := rateLimiter_reset_empty_key_clears_all resetDemoLimiter "a" "b"
  have h4 := h.2.2.2 (by decide)
  refine ⟨h4.1, ?_, h.2.1⟩
  rw [h4.2 (by decide)]
  decide

/-- C5 evidence: the `RateLimiter` constructor performs no validation,
so non-positive parameters are accepted silently; `max_calls = 0` yields
a limiter that rejects every call, and `window_seconds = 0` yields one
that never retains history and admits every call. -/
theorem rateLimiter_init_no_validation (k : String) (now : Int) :
    (RateLimiter.init 0 60).max_calls = 0 ∧
    ((RateLimiter.init 0 60).check k now).1 = false ∧
    (RateLimiter.init 100 0).window = 0 ∧
    ((RateLimiter.init 100 0).check k now).1 = true ∧
    (((RateLimiter.init 100 0).check k now).2.check k now).1 = true := by
  refine ⟨rfl, ?_, rfl, ?_, ?_⟩
  · simp [RateLimiter.init, RateLimiter.check]
  · simp [RateLimiter.init, RateLimiter.check]
  · simp [RateLimiter.init, RateLimiter.check]

/-- C4: with `read_only = true`, `check_write_operation` returns the
read-only `OperationBlocked` and the guard state — in particular the
rate limiter's per-key timestamps — is returned completely unchanged:
the limiter is never consulted in this branch. -/
theorem check_write_read_only_frame (g : SafetyGuard) (op : String) (now : Int)
    (h : g.settings.read_only = true) :
    g.check_write_operation op now =
      (some { operation := op, reason := "Server is running in read-only mode",
              setting := "MCP_READ_ONLY" }, g) := by
  simp [SafetyGuard.check_write_operation, h]

/-- Guard whose settings enable read-only mode with ample rate budget. -/
def readOnlyGuard : SafetyGuard :=
  SafetyGuard.init
    { read_only := true, disable_destructive := false, single_cluster := false,
      rate_limit_calls := 100, rate_limit_window := 60 }

/-- Witness for C4 at a concrete input: the read-only guard blocks a
sync and hands back its state untouched. -/
theorem check_write_read_only_frame_witness :
    readOnlyGuard.check_write_operation "sync_application" 0 =
      (some { operation := "sync_application",
              reason := "Server is running in read-only mode",
              setting := "MCP_READ_ONLY" }, readOnlyGuard) :=
  check_write_read_only_frame readOnlyGuard "sync_application" 0 rfl

/-- Guard locked down by both read-only mode and the destructive kill
switch. -/
def bothLockedGuard : SafetyGuard :=
  SafetyGuard.init
    { read_only := true, disable_destructive := true, single_cluster := false,
      rate_limit_calls := 100, rate_limit_window := 60 }

/-- Guard with all permission gates open and ample rate budget. -/
def openGuard : SafetyGuard :=
  SafetyGuard.init
    { read_only := false, disable_destructive := false, single_cluster := false,
      rate_limit_calls := 100, rate_limit_window := 60 }

/-- C1: gate ordering in `check_destructive_operation` — with
`read_only = true` and `disable_destructive = true` and no confirmation
supplied, the result is the read-only `OperationBlocked`, never the
destructive-disabled block and never a `ConfirmationRequired`:
first-failing-check wins. -/
theorem destructive_gate_ordering (g : SafetyGuard) (op target : String)
    (cn : Option String) (now : Int)
    (h1 : g.settings.read_only = true) (h2 : g.settings.disable_destructive = true) :
    (g.check_destructive_operation op target false cn now).1 =
      .blocked { operation := op, reason := "Server is running in read-only mode",
                 setting := "MCP_READ_ONLY" } := by
  simp [SafetyGuard.check_destructive_operation, SafetyGuard.check_write_operation, h1]

/-- Witness for C1 at a concrete input: the fully locked guard reports
the read-only block for an unconfirmed delete. -/
theorem destructive_gate_ordering_witness :
    (bothLockedGuard.check_destructive_operation "delete_application" "prod-app"
        false none 0).1 =
      .blocked { operation := "delete_application",
                 reason := "Server is running in read-only mode",
                 setting := "MCP_READ_ONLY" } :=
  destructive_gate_ordering bothLockedGuard "delete_application" "prod-app" none 0 rfl rfl

/-- Helper: when read-only mode is off and the rate check admits the
call, `check_write_operation` allows the operation and records the call
in the limiter. -/
theorem check_write_not_blocked (g : SafetyGuard) (op : String) (now : Int)
    (h1 : g.settings.read_only = false)
    (h3 : (g.rate_limiter.check ("write:" ++ op) now).1 = true) :
    g.check_write_operation op now =
      (none, { g with rate_limiter := (g.rate_limiter.check ("write:" ++ op) now).2 }) := by
  simp [SafetyGuard.check_write_operation, h1, h3]

/-- C2: the two-factor confirmation gate.  Under open settings with rate
budget remaining, the destructive check allows the call exactly when
`confirmed = true` and `confirm_name` equals the target (a `None` name
never matches); any other combination yields a `ConfirmationRequired`
whose instructions contain the literal substring
`confirm_name='<target>'`. -/
theorem destructive_confirmation_two_factor (g : SafetyGuard)
    (op target : String) (confirmed : Bool) (cn : Option String) (now : Int)
    (h1 : g.settings.read_only = false) (h2 : g.settings.disable_destructive = false)
    (h3 : (g.rate_limiter.check ("write:" ++ op) now).1 = true) :
    ((g.check_destructive_operation op target confirmed cn now).1 =
      (if confirmed ∧ cn = some target then .allowed
       else .confirmation
         { operation := op, target := target,
           impact := SafetyGuard.get_impact_description op,
           confirmation_instructions :=
             "To proceed, set confirm=true AND confirm_name=\x27" ++ target ++ "\x27" })) ∧
    ((g.check_destructive_operation op target confirmed cn now).1 = .allowed ↔
      (confirmed = true ∧ cn = some target)) ∧
    (∀ c, (g.check_destructive_operation op target confirmed cn now).1 = .confirmation c →
      ∃ p q, c.confirmation_instructions =
        p ++ ("confirm_name=\x27" ++ target ++ "\x27") ++ q) := by
  have hw := check_write_not_blocked g op now h1 h3
  have hmain :
      (g.check_destructive_operation op target confirmed cn now).1 =
        (if confirmed ∧ cn = some target then .allowed
         else .confirmation
           { operation := op, target := target,
             impact := SafetyGuard.get_impact_description op,
             confirmation_instructions :=
               "To proceed, set confirm=true AND confirm_name=\x27" ++ target ++ "\x27" }) := by
    rw [SafetyGuard.check_destructive_operation, hw]
    by_cases hc : confirmed ∧ cn = some target
    · simp [h2, hc.1, hc.2]
    · rcases Decidable.not_and_iff_or_not.mp hc with hna | hnb
      · simp [h2, hna, hc]
      · simp [h2, hnb, hc]
  refine ⟨hmain, ?_, ?_⟩
  · rw [hmain]
    by_cases hc : confirmed ∧ cn = some target
    · simp [hc]
    · simp [hc]
  · intro c hcc
    rw [hmain] at hcc
    by_cases hc : confirmed ∧ cn = some target
    · rw [if_pos hc] at hcc
      exact absurd hcc (by simp)
    · rw [if_neg hc] at hcc
      refine ⟨"To proceed, set confirm=true AND ", "", ?_⟩
      have : c.confirmation_instructions =
          "To proceed, set confirm=true AND confirm_name=\x27" ++ target ++ "\x27" := by
        cases hcc
        rfl
      have hl : ("To proceed, set confirm=true AND confirm_name=\x27" : String) =
          "To proceed, set confirm=true AND " ++ "confirm_name=\x27" := by decide
      rw [this]
      simp only [String.append_empty]
      rw [← String.append_assoc, ← String.append_assoc, ← hl]

/-- Witness for C2 at a concrete input: with open settings, an
unconfirmed delete of `prod-app` yields the `ConfirmationRequired` whose
instructions name `confirm_name='prod-app'`. -/
theorem destructive_confirmation_two_factor_witness :
    (openGuard.check_destructive_operation "delete_application" "prod-app"
        false none 0).1 =
      .confirmation
        { operation := "delete_application", target := "prod-app",
          impact := "Application and all managed resources will be PERMANENTLY DELETED",
          confirmation_instructions :=
            "To proceed, set confirm=true AND confirm_name=\x27prod-app\x27" } := by
  have h := destructive_confirmation_two_factor openGuard "delete_application" "prod-app"
    false none 0 rfl rfl (by decide)
  exact h.1.trans (by decide)

/-- Guard restricted to the local cluster. -/
def singleClusterGuard : SafetyGuard :=
  SafetyGuard.init
    { read_only := false, disable_destructive := false, single_cluster := true,
      rate_limit_calls := 100, rate_limit_window := 60 }

/-- C7: the single-cluster exemption.  `check_cluster_operation` on the
literal `in-cluster` always returns `none`, whatever the flag; on any
other cluster it returns an `OperationBlocked` naming the
`MCP_SINGLE_CLUSTER` knob exactly when `single_cluster = true`. -/
theorem cluster_single_cluster_exemption (g : SafetyGuard) (op cluster : String)
    (h : cluster ≠ "in-cluster") :
    g.check_cluster_operation op "in-cluster" = none ∧
    g.check_cluster_operation op cluster =
      (if g.settings.single_cluster then
         some { operation := op,
                reason := "Operation on cluster \x27" ++ cluster ++
                  "\x27 blocked in single-cluster mode",
                setting := "MCP_SINGLE_CLUSTER" }
       else none) ∧
    ((∃ b, g.check_cluster_operation op cluster = some b ∧
        b.setting = "MCP_SINGLE_CLUSTER") ↔ g.settings.single_cluster = true) := by
  by_cases hs : g.settings.single_cluster
  · refine ⟨by simp [SafetyGuard.check_cluster_operation], ?_, ?_⟩
    · simp [SafetyGuard.check_cluster_operation, hs, h]
    · simp [SafetyGuard.check_cluster_operation, hs, h]
  · refine ⟨by simp [SafetyGuard.check_cluster_operation, hs], ?_, ?_⟩
    · simp [SafetyGuard.check_cluster_operation, hs]
    · simp [SafetyGuard.check_cluster_operation, hs]

/-- Witness for C7 at a concrete input: with `single_cluster = true`,
`in-cluster` passes and `remote-x` is blocked by `MCP_SINGLE_CLUSTER`. -/
theorem cluster_single_cluster_exemption_witness :
    singleClusterGuard.check_cluster_operation "sync_application" "in-cluster" = none ∧
    singleClusterGuard.check_cluster_operation "sync_application" "remote-x" =
      some { operation := "sync_application",
             reason := "Operation on cluster \x27remote-x\x27 blocked in single-cluster mode",
             setting := "MCP_SINGLE_CLUSTER" } := by
  have h := cluster_single_cluster_exemption singleClusterGuard "sync_application"
    "remote-x" (by decide)
  exact ⟨h.1, h.2.1.trans (by decide)⟩

/-- Guard whose rate budget is zero, so even the first read is
rate-limited. -/
def zeroRateGuard : SafetyGuard :=
  SafetyGuard.init
    { read_only := false, disable_destructive := false, single_cluster := false,
      rate_limit_calls := 0, rate_limit_window := 60 }

/-- C9: `format_message` unconditionally ends with the line
`To enable: Set <setting>=false in server configuration`, and the block
produced by a rate-limited read carries the numeric knob
`MCP_RATE_LIMIT_CALLS` as its setting, so its rendered unblock
instruction reads `Set MCP_RATE_LIMIT_CALLS=false` — a boolean-style
instruction for a numeric setting. -/
theorem format_message_unblock_suffix (b : OperationBlocked) (g : SafetyGuard)
    (op : String) (now : Int) (bl : OperationBlocked)
    (h : (g.check_read_operation op now).1 = some bl) :
    (∃ p, b.format_message =
      p ++ ("To enable: Set " ++ b.setting ++ "=false in server configuration")) ∧
    bl.setting = "MCP_RATE_LIMIT_CALLS" ∧
    (∃ p, bl.format_message =
      p ++ "To enable: Set MCP_RATE_LIMIT_CALLS=false in server configuration") := by
  have hsuffix : ∀ b2 : OperationBlocked, b2.format_message =
      ("OPERATION BLOCKED: " ++ b2.operation ++ "\n" ++ "Reason: " ++ b2.reason ++
        "\n" ++ "Setting: " ++ b2.setting ++ "\n") ++
        ("To enable: Set " ++ b2.setting ++ "=false in server configuration") := by
    intro b2
    rw [OperationBlocked.format_message]
    simp only [String.append_assoc]
  have hb : bl = { operation := op, reason := "Rate limit exceeded",
                   setting := "MCP_RATE_LIMIT_CALLS" } := by
    by_cases hr : (g.rate_limiter.check ("read:" ++ op) now).1
    · simp [SafetyGuard.check_read_operation, hr] at h
    · simp [SafetyGuard.check_read_operation, hr] at h
      exact h.symm
  refine ⟨⟨_, hsuffix b⟩, by rw [hb], ?_⟩
  refine ⟨"OPERATION BLOCKED: " ++ op ++
    "\nReason: Rate limit exceeded\nSetting: MCP_RATE_LIMIT_CALLS\n", ?_⟩
  rw [hb]
  show "OPERATION BLOCKED: " ++ op ++ "\n" ++ "Reason: " ++ "Rate limit exceeded" ++
      "\n" ++ "Setting: " ++ "MCP_RATE_LIMIT_CALLS" ++ "\n" ++ "To enable: Set " ++
      "MCP_RATE_LIMIT_CALLS" ++ "=false in server configuration" = _
  simp only [String.append_assoc]
  congr 1

/-- Witness for C9 at a concrete input: the zero-budget guard
rate-limits the very first read, and the resulting block's message ends
with the boolean-style instruction for the numeric knob. -/
theorem format_message_unblock_suffix_witness :
    (∃ p, ({ operation := "sync_application", reason := "Server is running in read-only mode",
             setting := "MCP_READ_ONLY" } : OperationBlocked).format_message =
      p ++ ("To enable: Set " ++ "MCP_READ_ONLY" ++ "=false in server configuration")) ∧
    (∃ p, ({ operation := "list_applications", reason := "Rate limit exceeded",
             setting := "MCP_RATE_LIMIT_CALLS" } : OperationBlocked).format_message =
      p ++ "To enable: Set MCP_RATE_LIMIT_CALLS=false in server configuration") := by
  have h := format_message_unblock_suffix
    { operation := "sync_application", reason := "Server is running in read-only mode",
      setting := "MCP_READ_ONLY" }
    zeroRateGuard "list_applications" 0
    { operation := "list_applications", reason := "Rate limit exceeded",
      setting := "MCP_RATE_LIMIT_CALLS" }
    (by decide)
  exact ⟨h.1, h.2.2⟩

/-- C6 counterexample: in the no-file mode, `log` with `details = None`
emits a record that does contain a `details` field — bound to `null` —
because the stdout branch forwards `details=details` unconditionally;
this refutes the claim that both modes omit the field entirely. -/
theorem audit_stdout_details_counterexample :
    ("details", AuditVal.null) ∈
      (AuditLogger.mk none).log "2024-01-15T10:30:00+00:00" "abc12345"
        "sync_application" "my-app" "success" none := by
  decide

/-- C6 amended: in file mode the serialized entry omits the `details`
key entirely when `details` is null or empty and carries it with the
mapping when non-empty; in the no-file mode the `details` key is always
passed to the logging sink — as null when `details` is null, as the
(possibly empty) mapping otherwise. -/
theorem audit_details_omission_amended (al : AuditLogger)
    (ts cid action target result path : String)
    (details : Option (List (String × String))) :
    (al.log_path = some path → detailsTruthy details = false →
      ∀ v, ("details", v) ∉ al.log ts cid action target result details) ∧
    (al.log_path = some path → detailsTruthy details = true →
      ("details", AuditVal.dict (details.getD [])) ∈
        al.log ts cid action target result details) ∧
    (al.log_path = none →
      ("details", match details with
                  | none => AuditVal.null
                  | some d => AuditVal.dict d) ∈
        al.log ts cid action target result details) := by
  refine ⟨fun hp hd v => ?_, fun hp hd => ?_, fun hp => ?_⟩
  · simp [AuditLogger.log, hp, AuditLogger.buildEntry, hd]
  · simp [AuditLogger.log, hp, AuditLogger.buildEntry, hd]
  · cases details <;> simp [AuditLogger.log, hp, AuditLogger.stdoutEvent]

/-- Witness for C6 (amended) at concrete inputs: a file-mode logger with
null details emits no `details` field, with a non-empty mapping it
emits it, and a stdout-mode logger with null details emits
`details = null`. -/
theorem audit_details_omission_amended_witness :
    (("details", AuditVal.null) ∉
      (AuditLogger.mk (some "audit.json")).log "ts" "cid" "sync_application"
        "my-app" "success" none) ∧
    (("details", AuditVal.dict [("prune", "false")]) ∈
      (AuditLogger.mk (some "audit.json")).log "ts" "cid" "sync_application"
        "my-app" "success" (some [("prune", "false")])) ∧
    (("details", AuditVal.null) ∈
      (AuditLogger.mk none).log "ts" "cid" "sync_application"
        "my-app" "success" none) := by
  refine ⟨?_, ?_, ?_⟩
  · exact (audit_details_omission_amended (AuditLogger.mk (some "audit.json"))
      "ts" "cid" "sync_application" "my-app" "success" "audit.json" none).1
      rfl (by decide) AuditVal.null
  · exact (audit_details_omission_amended (AuditLogger.mk (some "audit.json"))
      "ts" "cid" "sync_application" "my-app" "success" "audit.json"
      (some [("prune", "false")])).2.1 rfl (by decide)
  · exact (audit_details_omission_amended (AuditLogger.mk none)
      "ts" "cid" "sync_application" "my-app" "success" "unused" none).2.2 rfl

/-- C8: the correlation ID is generated lazily and is then stable.  With
the context state empty (never set, or set to the empty string), the
first read returns the fresh short ID (the first 8 characters of the
supplied UUID string), stores it, and every later read returns that same
stored value whatever UUID the generator would produce next; after
`set_correlation_id` with a non-empty string, a read returns exactly
that string and leaves it in place. -/
theorem correlation_id_lazy_stable (u v cid : String) (hu : u.take 8 ≠ "") :
    ((get_correlation_id "" u).1 = u.take 8 ∧
     (get_correlation_id "" u).1 ≠ "" ∧
     (get_correlation_id "" u).2 = (get_correlation_id "" u).1 ∧
     get_correlation_id (get_correlation_id "" u).2 v =
       ((get_correlation_id "" u).1, (get_correlation_id "" u).1)) ∧
    (cid ≠ "" →
      get_correlation_id (set_correlation_id cid) u = (cid, cid)) := by
  have h0 : get_correlation_id "" u = (u.take 8, u.take 8) := by
    unfold get_correlation_id
    rw [if_pos rfl]
  have h1 : get_correlation_id (u.take 8) v = (u.take 8, u.take 8) := by
    unfold get_correlation_id
    rw [if_neg hu]
  refine ⟨⟨?_, ?_, ?_, ?_⟩, fun hc => ?_⟩
  · simp only [h0]
  · simp only [h0]
    exact hu
  · simp only [h0]
  · simp only [h0]
    exact h1
  · unfold get_correlation_id set_correlation_id
    rw [if_neg hc]

/-- Witness for C8 at concrete inputs: reading with empty state and a
concrete UUID yields its first 8 characters, and reading after setting
`req-1` yields `req-1` unchanged. -/
theorem correlation_id_lazy_stable_witness :
    (get_correlation_id "" "550e8400-e29b-41d4-a716-446655440000").1 = "550e8400" ∧
    get_correlation_id
      (get_correlation_id "" "550e8400-e29b-41d4-a716-446655440000").2 "other-uuid" =
      ("550e8400", "550e8400") ∧
    get_correlation_id (set_correlation_id "req-1") "550e8400" = ("req-1", "req-1") := by
  have h := correlation_id_lazy_stable "550e8400-e29b-41d4-a716-446655440000"
    "other-uuid" "req-1" (by decide)
  refine ⟨h.1.1.trans (by decide), ?_, h.2 (by decide)⟩
  rw [h.1.2.2.2, h.1.1]
  decide

end ArgocdMcp
